import Mathlib

/-!
Verification development for the last-mile-routing analyzer.

This file gives a shallow embedding, in Lean 4, of the core data model and
operations of the repository (packages, stops, routes, distance and circuity
computations, and the OSM routing providers), translated from the Python
sources in `src/lmr_analyzer/`.  Numeric float values are modelled as exact
rationals (`ℚ`) where only field operations occur, and as real numbers (`ℝ`)
where transcendental functions (haversine) occur.  Python exceptions are
modelled by an explicit error type `PyErr` through `Except`; `warnings.warn`
calls are modelled by returning the list of emitted warning messages.
Mutable Python objects reachable through references (packages owned by stops)
are modelled by an explicit heap mapping package ids to package values.
-/

/-- Python exceptions that the embedded code can raise. -/
inductive PyErr where
  | valueError (msg : String)
  | keyError (key : String)
  | attributeError (msg : String)
  | runtimeError (msg : String)
  | indexError (msg : String)
deriving DecidableEq

/-! ## Package (src/lmr_analyzer/package.py) -/

/-- A package object: fields assigned in `package.__init__` plus the derived
`volume` assigned there via `calculate_volume`. -/
structure Package where
  name : String
  dimensions : ℚ × ℚ × ℚ
  status : String
  weight : ℚ
  price : ℚ
  volume : ℚ
deriving DecidableEq

/-- The four-value status enum accepted by `package.__init__`
(package.py, line 35). -/
def validStatuses : List String :=
  ["to-be-delivered", "rejected", "attempted", "delivered"]

/-- package.calculate_volume: product of the three dimensions
(package.py, line 60). -/
def calculate_volume (dimensions : ℚ × ℚ × ℚ) : ℚ :=
  dimensions.1 * dimensions.2.1 * dimensions.2.2

/-- package.__init__ (package.py, lines 6-43): saves the arguments, raises
ValueError when the status is outside the four-value enum, and computes
`volume` from the dimensions. -/
def package_init (name : String) (dimensions : ℚ × ℚ × ℚ) (status : String)
    (weight : ℚ := 0) (price : ℚ := 0) : Except PyErr Package :=
  if status ∈ validStatuses then
    .ok { name := name, dimensions := dimensions, status := status,
          weight := weight, price := price,
          volume := calculate_volume dimensions }
  else
    .error (.valueError "Invalid package status: must be one of the following: to-be-delivered, rejected, attempted, delivered.")

/-- package.modify_status (package.py, lines 62-76): sets the status field
with no validation at all. -/
def Package.modify_status (p : Package) (status : String) : Package :=
  { p with status := status }

/-! ## Heap of package objects

Python stops hold references to mutable package objects; we model the store
of package objects as a function from package ids to packages, and
`modify_status` on an owned package as a pointwise heap update. -/

abbrev PackageId := Nat

abbrev Heap := PackageId → Package

/-- Calling `modify_status` on the package object with id `pid`: the heap is
updated at that reference, every other reference is untouched. -/
def modify_status_at (h : Heap) (pid : PackageId) (status : String) : Heap :=
  fun i => if i = pid then (h i).modify_status status else h i

/-! ## Stop (src/lmr_analyzer/stop.py) -/

/-- A stop object.  `packages_list` holds the references (ids) to the owned
package objects; `status_list` is the snapshot
`[package.status for package in self.packages_list]` taken at construction
(stop.py, line 105). -/
structure Stop where
  name : String
  location : ℚ × ℚ
  location_type : String
  time_window : ℚ × ℚ
  planned_service_time : ℚ
  packages_list : List PackageId
  status_list : List String
deriving DecidableEq

/-- stop.__init__ (stop.py, lines 38-107): validates the time window and the
location type, then records the packages and the status snapshot.  The
packages argument is taken as the already-normalized list of package
references (the Python dict-or-list normalization at lines 95-102 only
reshapes the container). -/
def stop_init (h : Heap) (name : String) (location : ℚ × ℚ)
    (location_type : String) (time_window : ℚ × ℚ)
    (planned_service_time : ℚ) (packages : List PackageId) :
    Except PyErr Stop :=
  if time_window.1 > time_window.2 then
    .error (.valueError "Invalid time window: start time is greater than end time.")
  else if location_type ∉ ["depot", "pickup", "delivery"] then
    .error (.valueError "Invalid stop location type: must be one of the following: depot, pickup, delivery.")
  else
    .ok { name := name, location := location, location_type := location_type,
          time_window := time_window,
          planned_service_time := planned_service_time,
          packages_list := packages,
          status_list := packages.map fun i => (h i).status }

/-- stop.number_of_delivered_packages (stop.py, lines 113-115): counts in the
construction-time snapshot `status_list`, not in the live packages. -/
def Stop.number_of_delivered_packages (s : Stop) : Nat :=
  s.status_list.count "delivered"

/-- stop.number_of_rejected_packages (stop.py, lines 117-119). -/
def Stop.number_of_rejected_packages (s : Stop) : Nat :=
  s.status_list.count "rejected"

/-- stop.number_of_failed_attempted_packages (stop.py, lines 121-123). -/
def Stop.number_of_failed_attempted_packages (s : Stop) : Nat :=
  s.status_list.count "attempted"

/-- stop.number_of_to_be_delivered_packages (stop.py, lines 125-127). -/
def Stop.number_of_to_be_delivered_packages (s : Stop) : Nat :=
  s.status_list.count "to-be-delivered"

/-- stop.number_of_packages (stop.py, lines 129-139): the length of the
package collection. -/
def Stop.number_of_packages (s : Stop) : Nat :=
  s.packages_list.length

/-- The FIRST definition of stop.total_volume_of_packages (stop.py, lines
141-151): sums the volumes of all owned packages.  In the Python class body
it is shadowed by the second definition below and is therefore unreachable;
it is kept here under a distinct name to state the shadowing claim. -/
def Stop.total_volume_of_packages_first_def (h : Heap) (s : Stop) : ℚ :=
  (s.packages_list.map fun i => (h i).volume).sum

/-- The SECOND (effective) definition of stop.total_volume_of_packages
(stop.py, lines 223-239): sums the volumes of only the packages whose
current status is to-be-delivered.  Being the later definition in the class
body, this is the one Python binds to the property name. -/
def Stop.total_volume_of_packages (h : Heap) (s : Stop) : ℚ :=
  (((s.packages_list.map h).filter fun p => p.status = "to-be-delivered").map
    Package.volume).sum

/-- stop.total_volume_of_delivered_packages (stop.py, lines 169-185): reads
the packages' current statuses through the references. -/
def Stop.total_volume_of_delivered_packages (h : Heap) (s : Stop) : ℚ :=
  (((s.packages_list.map h).filter fun p => p.status = "delivered").map
    Package.volume).sum

/-- stop.total_volume_of_rejected_packages (stop.py, lines 187-203). -/
def Stop.total_volume_of_rejected_packages (h : Heap) (s : Stop) : ℚ :=
  (((s.packages_list.map h).filter fun p => p.status = "rejected").map
    Package.volume).sum

/-! ## Haversine distance (src/lmr_analyzer/utils.py, lines 16-28) -/

/-- math.radians: degrees to radians. -/
noncomputable def radians (x : ℝ) : ℝ := x * Real.pi / 180

/-- The local variable `a` of utils.haversine (utils.py, line 25):
`sin(d_lat / 2) ** 2 + cos(lat1) * cos(lat2) * sin(d_lon / 2) ** 2`,
with all four inputs first converted to radians. -/
noncomputable def haversine_a (lat1 lon1 lat2 lon2 : ℝ) : ℝ :=
  Real.sin ((radians lat2 - radians lat1) / 2) ^ 2 +
    Real.cos (radians lat1) * Real.cos (radians lat2) *
      Real.sin ((radians lon2 - radians lon1) / 2) ^ 2

/-- utils.haversine (utils.py, lines 16-28): great-circle distance in km,
`6371 * (2 * asin(sqrt(a)))`. -/
noncomputable def haversine (lat1 lon1 lat2 lon2 : ℝ) : ℝ :=
  6371 * (2 * Real.arcsin (Real.sqrt (haversine_a lat1 lon1 lat2 lon2)))

/-- get_distance in mode "haversine" (utils.py, lines 190-194) applied to two
(lat, lon) locations, first component of the returned pair. -/
noncomputable def get_distance_haversine (location1 location2 : ℚ × ℚ) : ℝ :=
  haversine (location1.1 : ℝ) (location1.2 : ℝ) (location2.1 : ℝ) (location2.2 : ℝ)

/-! ## Route euclidean-distance stage (route.py, lines 371-418) -/

/-- The warning message emitted by route.__calculate_euclidean_distances on an
empty sequence (route.py, lines 391-393); the quotes around the attribute
name in the Python f-string are dropped. -/
def null_array_warning (name : String) : String :=
  s!"Sequence is empty. The {name} attribute will be set as a null array."

/-- route.__calculate_euclidean_distances (route.py, lines 371-418): on an
empty sequence, warns and produces an empty distance array; otherwise maps
the haversine distance over consecutive stop pairs and appends the cyclic
last-to-first leg.  Returns the emitted warnings and the distance array. -/
noncomputable def calculate_euclidean_distances (sequence : List Stop)
    (name : String) : List String × List ℝ :=
  match sequence with
  | [] => ([null_array_warning name], [])
  | s0 :: rest =>
    let distances := ((s0 :: rest).zip rest).map fun p =>
      get_distance_haversine p.1.location p.2.location
    let final_distance :=
      get_distance_haversine (((s0 :: rest).getLast (by simp)).location) s0.location
    ([], distances ++ [final_distance])

/-! ## Route driving-distance stage (route.py, lines 472-514 and 516-621) -/

/-- The ValueError raised by route.__calculate_driving_distances on an empty
sequence (route.py, lines 478-481). -/
def sequence_empty_error : PyErr :=
  .valueError "Sequence is empty. Try to run evaluate_driving_distances method first."

/-- The AttributeError raised by the sequential path of
route.__calculate_driving_distances (route.py, line 493): `osm_distances` was
already converted to a NumPy array at lines 485-490, and `numpy.ndarray` has
no `append` method. -/
def ndarray_append_error : PyErr :=
  .attributeError "numpy.ndarray object has no attribute append"

/-- route.__calculate_driving_distances (route.py, lines 472-514).  The
network-backed dispatcher `get_distance(location1, location2, mode, session)`
is abstracted as the argument `getDist`, returning a (distance_km,
duration_min) pair.  On an empty sequence it raises ValueError.  In the
sequential path (multiprocessing=False) it builds
`np.array([get_distance(...) for ... in zip(sequence[:-1], sequence[1:])])`
and then calls `.append` on that NumPy array, which raises AttributeError
before anything is stored.  In the multiprocessing path the transitions are
mapped through `getDist` (Pool.starmap is a deterministic map), the cyclic
last-to-first leg is appended, and the first components are kept. -/
def calculate_driving_distances (sequence : List (ℚ × ℚ)) (mode : String)
    (multiprocessing : Bool)
    (getDist : (ℚ × ℚ) → (ℚ × ℚ) → String → ℚ × ℚ) :
    Except PyErr (List ℚ) :=
  match sequence with
  | [] => .error sequence_empty_error
  | s0 :: rest =>
    if !multiprocessing then
      .error ndarray_append_error
    else
      let osm_distances := ((s0 :: rest).zip rest).map fun p => getDist p.1 p.2 mode
      let osm_distances :=
        osm_distances ++ [getDist ((s0 :: rest).getLast (by simp)) s0 mode]
      .ok (osm_distances.map Prod.fst)

/-- route.evaluate_driving_distances, matrix-free branch for one sequence
kind (route.py, lines 583-591 for planned, 611-619 for actual): delegates to
__calculate_driving_distances on the locations of the sequence and then sets
the total to the sum of the stored distances. -/
def evaluate_driving_distances_no_matrix (sequence : List (ℚ × ℚ))
    (mode : String) (multiprocessing : Bool)
    (getDist : (ℚ × ℚ) → (ℚ × ℚ) → String → ℚ × ℚ) :
    Except PyErr (List ℚ × ℚ) :=
  (calculate_driving_distances sequence mode multiprocessing getDist).map
    fun distances => (distances, distances.sum)

/-! ## Route circuity stage (route.py, lines 623-687) -/

/-- route.evaluate_circuity_factor for one sequence kind (route.py, lines
641-661 for planned, 663-685 for actual): takes the previously stored
driving and euclidean distance arrays and their totals, and produces the
per-transition circuity factors `[x / y if y != 0 else 1 for x, y in
zip(driving, euclidean)]` together with the aggregate factor
`total_driving / total_euclidean`.  (The mean/max/min/median order
statistics computed alongside are not modelled.) -/
def evaluate_circuity_factor (driving_distances euclidean_distances : List ℚ)
    (total_driving_distance total_euclidean_distance : ℚ) : List ℚ × ℚ :=
  let circuity_factors :=
    (driving_distances.zip euclidean_distances).map fun p =>
      if p.2 ≠ 0 then p.1 / p.2 else 1
  (circuity_factors, total_driving_distance / total_euclidean_distance)

/-! ## Route status evaluation (route.py, lines 256-357) -/

/-- The results of route.evaluate_route_status, together with the warnings
emitted by its ZeroDivisionError handlers. -/
structure RouteStatus where
  number_of_packages : Nat
  number_of_delivery_stops : Nat
  number_of_pickup_stops : Nat
  number_of_delivered_packages : Nat
  number_of_rejected_packages : Nat
  number_of_failed_attempted_packages : Nat
  avg_packages_per_stop : ℚ
  rejected_packages_percentage : ℚ
  delivered_packages_percentage : ℚ
  failed_attempted_packages_percentage : ℚ
  warnings : List String
deriving DecidableEq

/-- route.evaluate_route_status (route.py, lines 256-357).  The loop over
`self.stops.values()` counts every non-delivery stop as a pickup stop and
accumulates the package counters over delivery stops only (lines 284-295);
the accumulations are rendered as sums over the filtered stop list.  The
ratio computations keep the literal factors of the source: rejected and
delivered percentages are `count * 1000 / number_of_packages` (lines 317 and
326) while the failed-attempted percentage is `count * 100 /
number_of_packages` (line 335); each ZeroDivisionError handler substitutes 0
and emits a warning. -/
def evaluate_route_status (stops : List Stop) : RouteStatus :=
  let delivery_stops := stops.filter fun s => s.location_type = "delivery"
  let number_of_pickup_stops := (stops.filter fun s => s.location_type ≠ "delivery").length
  let number_of_delivery_stops := delivery_stops.length
  let number_of_packages := (delivery_stops.map Stop.number_of_packages).sum
  let number_of_delivered_packages :=
    (delivery_stops.map Stop.number_of_delivered_packages).sum
  let number_of_rejected_packages :=
    (delivery_stops.map Stop.number_of_rejected_packages).sum
  let number_of_failed_attempted_packages :=
    (delivery_stops.map Stop.number_of_failed_attempted_packages).sum
  let avgPair :=
    if number_of_delivery_stops = 0 then
      ((0 : ℚ),
        ["The route has no delivery stops. The average packages per stop is set to 0."])
    else
      ((number_of_packages : ℚ) / (number_of_delivery_stops : ℚ), [])
  let rejPair :=
    if number_of_packages = 0 then
      ((0 : ℚ),
        ["The route has no packages. The rejected packages percentage is set to 0."])
    else
      ((number_of_rejected_packages : ℚ) * 1000 / (number_of_packages : ℚ), [])
  let delPair :=
    if number_of_packages = 0 then
      ((0 : ℚ),
        ["The route has no packages. The delivered packages percentage is set to 0."])
    else
      ((number_of_delivered_packages : ℚ) * 1000 / (number_of_packages : ℚ), [])
  let failPair :=
    if number_of_packages = 0 then
      ((0 : ℚ),
        ["The route has no packages. The failed attempted packages percentage is set to 0."])
    else
      ((number_of_failed_attempted_packages : ℚ) * 100 / (number_of_packages : ℚ), [])
  { number_of_packages := number_of_packages
    number_of_delivery_stops := number_of_delivery_stops
    number_of_pickup_stops := number_of_pickup_stops
    number_of_delivered_packages := number_of_delivered_packages
    number_of_rejected_packages := number_of_rejected_packages
    number_of_failed_attempted_packages := number_of_failed_attempted_packages
    avg_packages_per_stop := avgPair.1
    rejected_packages_percentage := rejPair.1
    delivered_packages_percentage := delPair.1
    failed_attempted_packages_percentage := failPair.1
    warnings := avgPair.2 ++ rejPair.2 ++ delPair.2 ++ failPair.2 }

/-! ## Route sequence assignment (route.py, lines 116-196) -/

/-- A route object; only the fields the sequence setters read or write are
kept.  The `stops` dict is an insertion-ordered association list; the
sequence attributes do not exist until a setter runs, modelled by `Option`. -/
structure Route where
  name : String
  stops : List (String × Stop)
  planned_sequence : Option (List Stop) := none
  planned_sequence_names : Option (List String) := none
  number_of_planned_stops : Option Nat := none
  actual_sequence : Option (List Stop) := none
  actual_sequence_names : Option (List String) := none
  number_of_actual_stops : Option Nat := none
deriving DecidableEq

/-- An element of the duck-typed sequence argument of the setters: either a
stop object or a stop-name string. -/
inductive SeqElem where
  | stopE (s : Stop)
  | strE (n : String)
deriving DecidableEq

/-- isinstance(x, stop). -/
def SeqElem.isStop : SeqElem → Bool
  | .stopE _ => true
  | .strE _ => false

/-- isinstance(x, str). -/
def SeqElem.isStr : SeqElem → Bool
  | .stopE _ => false
  | .strE _ => true

/-- The stop payload of a sequence element, when it is a stop object. -/
def SeqElem.getStop : SeqElem → Option Stop
  | .stopE s => some s
  | .strE _ => none

/-- The name payload of a sequence element, when it is a string. -/
def SeqElem.getName : SeqElem → Option String
  | .stopE _ => none
  | .strE n => some n

/-- The list comprehension `[self.stops[x] for x in sequence]` (route.py,
lines 146 and 187): looks every name up in the stops dict left to right and
raises KeyError at the first missing name. -/
def resolve_names (stops : List (String × Stop)) : List String → Except PyErr (List Stop)
  | [] => .ok []
  | n :: ns =>
    match stops.lookup n with
    | some s => (resolve_names stops ns).map fun rest => s :: rest
    | none => .error (.keyError n)

/-- The ValueError raised by the setters on a sequence that is neither all
stop objects nor all strings (route.py, lines 148-150 and 189-191). -/
def invalid_sequence_error : PyErr :=
  .valueError "Invalid sequence: all elements must be of type stop or str."

/-- route.set_planned_sequence (route.py, lines 116-155): a sequence of stop
objects is stored as given, with no check against the stops dict; a sequence
of names is resolved through the dict (KeyError on a missing name); anything
else raises ValueError. -/
def set_planned_sequence (r : Route) (sequence : List SeqElem) : Except PyErr Route :=
  if sequence.all SeqElem.isStop then
    let seq := sequence.filterMap SeqElem.getStop
    .ok { r with planned_sequence := some seq,
                 number_of_planned_stops := some seq.length,
                 planned_sequence_names := some (seq.map Stop.name) }
  else if sequence.all SeqElem.isStr then
    let names := sequence.filterMap SeqElem.getName
    match resolve_names r.stops names with
    | .ok seq =>
      .ok { r with planned_sequence := some seq,
                   number_of_planned_stops := some seq.length,
                   planned_sequence_names := some (seq.map Stop.name) }
    | .error e => .error e
  else
    .error invalid_sequence_error

/-- route.set_actual_sequence (route.py, lines 157-196): same body as
set_planned_sequence, writing the actual-sequence attributes. -/
def set_actual_sequence (r : Route) (sequence : List SeqElem) : Except PyErr Route :=
  if sequence.all SeqElem.isStop then
    let seq := sequence.filterMap SeqElem.getStop
    .ok { r with actual_sequence := some seq,
                 number_of_actual_stops := some seq.length,
                 actual_sequence_names := some (seq.map Stop.name) }
  else if sequence.all SeqElem.isStr then
    let names := sequence.filterMap SeqElem.getName
    match resolve_names r.stops names with
    | .ok seq =>
      .ok { r with actual_sequence := some seq,
                   number_of_actual_stops := some seq.length,
                   actual_sequence_names := some (seq.map Stop.name) }
    | .error e => .error e
  else
    .error invalid_sequence_error

/-! ## OSM routing HTTP providers (utils.py lines 73-113, utilities.py lines
102-155) -/

/-- One element of the `routes` array of an OSM routing response, with the
`distance` (meters) and `duration` (seconds) fields. -/
structure OsmRoute where
  distance : ℚ
  duration : ℚ
deriving DecidableEq

/-- The decoded JSON body of an OSM routing response: the `code` field and
the `routes` array (empty when the response carries no routes). -/
structure OsmResponse where
  code : String
  routes : List OsmRoute
deriving DecidableEq

/-- The error/warning message shared verbatim by utils.__request_data_from_osm
and utilities.drive_distance_osm, naming the response code, the origin and
the destination. -/
def osm_error_message (code : String) (origin destination : ℚ × ℚ) : String :=
  s!"OSM API returned an {code} error when calculating the following distance: from {origin} to {destination}"

/-- utils.__request_data_from_osm (utils.py, lines 103-113): the HTTP
round-trip is abstracted by passing the decoded response; a response whose
code field is not Ok raises RuntimeError with a message naming the origin
and the destination. -/
def request_data_from_osm (origin destination : ℚ × ℚ) (res : OsmResponse) :
    Except PyErr OsmResponse :=
  if res.code ≠ "Ok" then
    .error (.runtimeError (osm_error_message res.code origin destination))
  else
    .ok res

/-- utils.drive_distance_osm (utils.py, lines 73-100): delegates to
__request_data_from_osm (so a non-Ok code propagates as the RuntimeError),
then reads routes[0] and converts to (distance_km, duration_min). -/
def drive_distance_osm (origin destination : ℚ × ℚ) (res : OsmResponse) :
    Except PyErr (ℚ × ℚ) :=
  match request_data_from_osm origin destination res with
  | .error e => .error e
  | .ok r =>
    match r.routes with
    | [] => .error (.indexError "list index out of range")
    | route0 :: _ => .ok (route0.distance / 1000, route0.duration / 60)

/-- utilities.drive_distance_osm (utilities.py, lines 102-155): the legacy
provider only calls warnings.warn on a non-Ok code (lines 136-141) and then
unconditionally reads routes[0].  Returns the emitted warnings alongside the
outcome. -/
def drive_distance_osm_utilities (origin destination : ℚ × ℚ)
    (res : OsmResponse) : List String × Except PyErr (ℚ × ℚ) :=
  let warns :=
    if res.code ≠ "Ok" then [osm_error_message res.code origin destination]
    else []
  match res.routes with
  | [] => (warns, .error (.indexError "list index out of range"))
  | route0 :: _ => (warns, .ok (route0.distance / 1000, route0.duration / 60))

/-! ## Test fixtures and helper functions -/

/-- A one-cubic-unit test package with a given status. -/
def testPackage (status : String) : Package :=
  { name := "p", dimensions := (1, 1, 1), status := status,
    weight := 0, price := 0, volume := 1 }

/-- A heap in which every package reference points at a delivered package. -/
def deliveredHeap : Heap := fun _ => testPackage "delivered"

/-- A heap in which every package reference points at a to-be-delivered
package. -/
def tbdHeap : Heap := fun _ => testPackage "to-be-delivered"

/-- A delivery stop literal with the given package references and status
snapshot. -/
def testStop (ids : List PackageId) (statuses : List String) : Stop :=
  { name := "S", location := (0, 0), location_type := "delivery",
    time_window := (0, 1), planned_service_time := 0,
    packages_list := ids, status_list := statuses }

/-- A package-free delivery stop with a given name. -/
def namedStop (nm : String) : Stop :=
  { name := nm, location := (0, 0), location_type := "delivery",
    time_window := (0, 1), planned_service_time := 0,
    packages_list := [], status_list := [] }

/-- A route whose stops dict holds exactly one stop, keyed "A". -/
def routeR0 : Route := { name := "R0", stops := [("A", namedStop "A")] }

/-- Whether an Except value is a success. -/
def exceptIsOk {ε α : Type} : Except ε α → Bool
  | .ok _ => true
  | .error _ => false

/-- Whether an Except value failed with a KeyError. -/
def isKeyError {α : Type} : Except PyErr α → Bool
  | .error (.keyError _) => true
  | _ => false

/-! ## Helper lemmas -/

/-- Sum of volumes of the packages with a given target status, over a list of
references that all carry one same status `st`: the whole volume sum if
`st = target`, nothing otherwise. -/
theorem sum_volume_filter_of_forall_status (h : Heap) (st target : String)
    (l : List PackageId) (hall : ∀ pid ∈ l, (h pid).status = st) :
    (((l.map h).filter fun p => p.status = target).map Package.volume).sum
      = if st = target then (l.map fun i => (h i).volume).sum else 0 := by
  induction l with
  | nil => simp
  | cons a tl ih =>
    have ha : (h a).status = st := hall a (by simp)
    have htl : ∀ pid ∈ tl, (h pid).status = st := fun pid hp => hall pid (by simp [hp])
    by_cases hst : st = target
    · subst hst
      simp [List.filter_cons, ha, ih htl]
    · simp [List.filter_cons, ha, hst, ih htl]

/-! ## Claim C10 -/

/-- C10: `package.modify_status` always succeeds and sets the status to the
given value with no validation, so the four-value status enum is enforced
only by `package.__init__` and is not preserved by `modify_status`: any
status outside the enum becomes reachable on a constructed package. -/
theorem C10_modify_status_unvalidated :
    (∀ (p : Package) (s : String), (p.modify_status s).status = s)
    ∧ (∀ (nm : String) (dims : ℚ × ℚ × ℚ) (st : String) (w pr : ℚ),
        st ∉ validStatuses →
        package_init nm dims st w pr =
          .error (.valueError "Invalid package status: must be one of the following: to-be-delivered, rejected, attempted, delivered."))
    ∧ (∀ (p : Package) (s : String), s ∉ validStatuses →
        (p.modify_status s).status ∉ validStatuses) := by
  refine ⟨fun p s => rfl, ?_, ?_⟩
  · intro nm dims st w pr hst
    simp [package_init, hst]
  · intro p s hs
    simpa [Package.modify_status] using hs

/-- Witness for C10 at a package constructed with a valid status and then
mutated to the out-of-enum status "lost". -/
theorem C10_modify_status_unvalidated_witness :
    ((testPackage "delivered").modify_status "lost").status = "lost"
    ∧ ((testPackage "delivered").modify_status "lost").status ∉ validStatuses :=
  ⟨C10_modify_status_unvalidated.1 (testPackage "delivered") "lost",
   C10_modify_status_unvalidated.2.2 (testPackage "delivered") "lost" (by decide)⟩

/-! ## Claim C8 -/

/-- C8: the effective (second, shadowing) definition of
`stop.total_volume_of_packages` sums only the to-be-delivered packages: on a
stop whose packages are all delivered it returns 0, while
`total_volume_of_delivered_packages` returns the full volume sum (the value
of the shadowed first definition). -/
theorem C8_total_volume_of_packages_shadowed (h : Heap) (s : Stop)
    (hall : ∀ pid ∈ s.packages_list, (h pid).status = "delivered") :
    Stop.total_volume_of_packages h s = 0
    ∧ Stop.total_volume_of_delivered_packages h s
        = Stop.total_volume_of_packages_first_def h s := by
  constructor
  · have hz := sum_volume_filter_of_forall_status h "delivered" "to-be-delivered"
      s.packages_list hall
    rw [if_neg (by decide)] at hz
    simpa [Stop.total_volume_of_packages] using hz
  · have he := sum_volume_filter_of_forall_status h "delivered" "delivered"
      s.packages_list hall
    rw [if_pos rfl] at he
    simpa [Stop.total_volume_of_delivered_packages,
      Stop.total_volume_of_packages_first_def] using he

/-- Witness for C8: a stop owning two delivered unit-volume packages has
`total_volume_of_packages` 0 while the delivered-volume total equals the full
volume sum. -/
theorem C8_total_volume_of_packages_shadowed_witness :
    Stop.total_volume_of_packages deliveredHeap
        (testStop [0, 1] ["delivered", "delivered"]) = 0
    ∧ Stop.total_volume_of_delivered_packages deliveredHeap
        (testStop [0, 1] ["delivered", "delivered"])
      = Stop.total_volume_of_packages_first_def deliveredHeap
          (testStop [0, 1] ["delivered", "delivered"]) :=
  C8_total_volume_of_packages_shadowed deliveredHeap
    (testStop [0, 1] ["delivered", "delivered"]) (by decide)

/-! ## Claim C5 -/

/-- C5: on an empty sequence, the euclidean stage warns and stores an empty
distance array, while the matrix-free driving stage raises ValueError. -/
theorem C5_empty_sequence_behavior :
    (∀ nm : String,
      calculate_euclidean_distances [] nm = ([null_array_warning nm], []))
    ∧ (∀ (mode : String) (mp : Bool)
        (getDist : (ℚ × ℚ) → (ℚ × ℚ) → String → ℚ × ℚ),
      calculate_driving_distances [] mode mp getDist
        = .error sequence_empty_error) :=
  ⟨fun _ => rfl, fun _ _ _ => rfl⟩

/-! ## Claim C2 -/

/-- Elementwise description of the per-transition circuity factors. -/
theorem circuity_factors_getD (driving euclidean : List ℚ) (i : ℕ)
    (h1 : i < driving.length) (h2 : i < euclidean.length) :
    ((driving.zip euclidean).map fun p => if p.2 ≠ 0 then p.1 / p.2 else 1).getD i 0
      = if euclidean.getD i 0 = 0 then 1
        else driving.getD i 0 / euclidean.getD i 0 := by
  induction driving generalizing euclidean i with
  | nil => simp at h1
  | cons d ds ih =>
    cases euclidean with
    | nil => simp at h2
    | cons e es =>
      cases i with
      | zero => by_cases he : e = 0 <;> simp [he]
      | succ j =>
        simp only [List.zip_cons_cons, List.map_cons, List.getD_cons_succ]
        exact ih es j (by simpa using h1) (by simpa using h2)

/-- C2: `evaluate_circuity_factor` sets each per-transition factor to the
ratio driving/euclidean, with the ratio defined as 1 exactly when the
euclidean distance is 0, and sets the aggregate factor to total driving over
total euclidean; for driving `[10, 10]` and euclidean `[5, 5]` the factors
are `[2, 2]` and the aggregate is 2. -/
theorem C2_circuity_factor_correct (driving euclidean : List ℚ) (td te : ℚ)
    (i : ℕ) (h1 : i < driving.length) (h2 : i < euclidean.length) :
    ((evaluate_circuity_factor driving euclidean td te).1.getD i 0
      = if euclidean.getD i 0 = 0 then 1
        else driving.getD i 0 / euclidean.getD i 0)
    ∧ (evaluate_circuity_factor driving euclidean td te).2 = td / te
    ∧ evaluate_circuity_factor [10, 10] [5, 5] (10 + 10) (5 + 5) = ([2, 2], 2) := by
  refine ⟨?_, rfl, by norm_num [evaluate_circuity_factor]⟩
  simpa [evaluate_circuity_factor] using
    circuity_factors_getD driving euclidean i h1 h2

/-- Witness for C2 at the spec example: driving `[10, 10]`, euclidean
`[5, 5]`, transition 0. -/
theorem C2_circuity_factor_correct_witness :
    ((evaluate_circuity_factor [10, 10] [5, 5] (10 + 10) (5 + 5)).1.getD 0 0
      = if ([5, 5] : List ℚ).getD 0 0 = 0 then 1
        else ([10, 10] : List ℚ).getD 0 0 / ([5, 5] : List ℚ).getD 0 0)
    ∧ (evaluate_circuity_factor [10, 10] [5, 5] (10 + 10) (5 + 5)).2
        = (10 + 10) / (5 + 5)
    ∧ evaluate_circuity_factor [10, 10] [5, 5] (10 + 10) (5 + 5) = ([2, 2], 2) :=
  C2_circuity_factor_correct [10, 10] [5, 5] (10 + 10) (5 + 5) 0
    (by decide) (by decide)

/-! ## Claim C6 -/

/-- A decoded OSM response whose code is not Ok but which still carries a
routes entry (5000 m, 600 s). -/
def badOsmResponse : OsmResponse :=
  { code := "NoSegment", routes := [{ distance := 5000, duration := 600 }] }

/-- C6 counterexample: the legacy OSM provider `utilities.drive_distance_osm`
does NOT fail on a response whose code is not Ok: it only emits the warning
naming origin and destination and then returns the distance/duration read
from the response, refuting the claim that the failure is always propagated
rather than downgraded to a warning. -/
theorem C6_counterexample :
    (drive_distance_osm_utilities (0, 0) (1, 1) badOsmResponse).2 = .ok (5, 10)
    ∧ (drive_distance_osm_utilities (0, 0) (1, 1) badOsmResponse).1
        = [osm_error_message "NoSegment" (0, 0) (1, 1)]
    ∧ badOsmResponse.code ≠ "Ok" := by
  refine ⟨?_, rfl, by decide⟩
  have h : (drive_distance_osm_utilities (0, 0) (1, 1) badOsmResponse).2
      = .ok ((5000 : ℚ) / 1000, (600 : ℚ) / 60) := rfl
  rw [h]
  norm_num

/-- C6 amended: the provider used by the dispatcher
(utils.__request_data_from_osm / utils.drive_distance_osm) raises, on a
non-Ok code, a RuntimeError whose message names the origin and the
destination, and the error propagates through drive_distance_osm; the legacy
provider utilities.drive_distance_osm instead only emits the same message as
a warning and still returns the converted distance/duration of the first
routes entry when one is present. -/
theorem C6_osm_error_handling (origin destination : ℚ × ℚ) (res : OsmResponse)
    (hcode : res.code ≠ "Ok") :
    request_data_from_osm origin destination res
        = .error (.runtimeError (osm_error_message res.code origin destination))
    ∧ drive_distance_osm origin destination res
        = .error (.runtimeError (osm_error_message res.code origin destination))
    ∧ (drive_distance_osm_utilities origin destination res).1
        = [osm_error_message res.code origin destination] := by
  have h1 : request_data_from_osm origin destination res
      = .error (.runtimeError (osm_error_message res.code origin destination)) := by
    simp [request_data_from_osm, hcode]
  refine ⟨h1, ?_, ?_⟩
  · simp [drive_distance_osm, h1]
  · cases hr : res.routes <;>
      simp [drive_distance_osm_utilities, hcode, hr]

/-- Witness for C6 amended at the concrete non-Ok response. -/
theorem C6_osm_error_handling_witness :
    request_data_from_osm (0, 0) (1, 1) badOsmResponse
        = .error (.runtimeError
            (osm_error_message badOsmResponse.code (0, 0) (1, 1)))
    ∧ drive_distance_osm (0, 0) (1, 1) badOsmResponse
        = .error (.runtimeError
            (osm_error_message badOsmResponse.code (0, 0) (1, 1)))
    ∧ (drive_distance_osm_utilities (0, 0) (1, 1) badOsmResponse).1
        = [osm_error_message badOsmResponse.code (0, 0) (1, 1)] :=
  C6_osm_error_handling (0, 0) (1, 1) badOsmResponse (by decide)

/-! ## Claim C4 -/

/-- When every name is found in the stops dict, resolve_names succeeds. -/
theorem resolve_names_isOk_of_all_found (stops : List (String × Stop))
    (names : List String) (h : ∀ n ∈ names, (stops.lookup n).isSome) :
    ∃ l, resolve_names stops names = .ok l := by
  induction names with
  | nil => exact ⟨[], rfl⟩
  | cons n ns ih =>
    have hn := h n (by simp)
    obtain ⟨s, hs⟩ := Option.isSome_iff_exists.mp hn
    obtain ⟨l, hl⟩ := ih fun m hm => h m (by simp [hm])
    exact ⟨s :: l, by simp [resolve_names, hs, hl, Except.map]⟩

/-- When some name is missing from the stops dict, resolve_names raises a
KeyError on a missing name. -/
theorem resolve_names_keyError_of_missing (stops : List (String × Stop))
    (names : List String) (h : ∃ n ∈ names, stops.lookup n = none) :
    ∃ k, resolve_names stops names = .error (.keyError k)
      ∧ stops.lookup k = none := by
  induction names with
  | nil => simp at h
  | cons n ns ih =>
    by_cases hn : stops.lookup n = none
    · exact ⟨n, by simp [resolve_names, hn], hn⟩
    · obtain ⟨s, hs⟩ := Option.ne_none_iff_exists.mp hn
      have h2 : ∃ m ∈ ns, stops.lookup m = none := by
        obtain ⟨m, hm, hnone⟩ := h
        rcases List.mem_cons.mp hm with rfl | hmns
        · exact absurd hnone hn
        · exact ⟨m, hmns, hnone⟩
      obtain ⟨k, hk, hknone⟩ := ih h2
      exact ⟨k, by simp [resolve_names, ← hs, hk, Except.map], hknone⟩

/-- A non-empty list of string-tagged elements fails the all-stops check. -/
theorem all_isStop_map_strE (m : String) (ms : List String) :
    ((m :: ms).map SeqElem.strE).all SeqElem.isStop = false := by
  simp [SeqElem.isStop]

/-- A list of string-tagged elements passes the all-strings check. -/
theorem all_isStr_map_strE (names : List String) :
    (names.map SeqElem.strE).all SeqElem.isStr = true := by
  induction names with
  | nil => rfl
  | cons n ns _ => simp [SeqElem.isStr]

/-- A list of stop-tagged elements passes the all-stops check. -/
theorem all_isStop_map_stopE (l : List Stop) :
    (l.map SeqElem.stopE).all SeqElem.isStop = true := by
  induction l with
  | nil => rfl
  | cons s t _ => simp [SeqElem.isStop]

/-- Extracting the names back out of a string-tagged sequence. -/
theorem filterMap_getName_map_strE (names : List String) :
    (names.map SeqElem.strE).filterMap SeqElem.getName = names := by
  induction names with
  | nil => rfl
  | cons n ns ih => simp [List.filterMap_cons, SeqElem.getName, ih]

/-- Extracting the stops back out of a stop-tagged sequence. -/
theorem filterMap_getStop_map_stopE (l : List Stop) :
    (l.map SeqElem.stopE).filterMap SeqElem.getStop = l := by
  induction l with
  | nil => rfl
  | cons s t ih => simp [List.filterMap_cons, SeqElem.getStop, ih]

/-- Composition form of the previous lemma, as produced by simp. -/
theorem filterMap_getStop_comp (l : List Stop) :
    List.filterMap (SeqElem.getStop ∘ SeqElem.stopE) l = l := by
  induction l with
  | nil => rfl
  | cons s t ih => simp [List.filterMap_cons, SeqElem.getStop, Function.comp, ih]

/-- Evaluation of set_planned_sequence on a non-empty all-names sequence. -/
theorem set_planned_sequence_names_eq (r : Route) (m : String) (ms : List String) :
    set_planned_sequence r ((m :: ms).map SeqElem.strE)
      = match resolve_names r.stops (m :: ms) with
        | .ok seq => .ok { r with
            planned_sequence := some seq
            number_of_planned_stops := some seq.length
            planned_sequence_names := some (seq.map Stop.name) }
        | .error e => .error e := by
  unfold set_planned_sequence
  rw [all_isStop_map_strE, all_isStr_map_strE, filterMap_getName_map_strE]
  simp

/-- Evaluation of set_actual_sequence on a non-empty all-names sequence. -/
theorem set_actual_sequence_names_eq (r : Route) (m : String) (ms : List String) :
    set_actual_sequence r ((m :: ms).map SeqElem.strE)
      = match resolve_names r.stops (m :: ms) with
        | .ok seq => .ok { r with
            actual_sequence := some seq
            number_of_actual_stops := some seq.length
            actual_sequence_names := some (seq.map Stop.name) }
        | .error e => .error e := by
  unfold set_actual_sequence
  rw [all_isStop_map_strE, all_isStr_map_strE, filterMap_getName_map_strE]
  simp

/-- Evaluation of set_planned_sequence on an all-stop-objects sequence. -/
theorem set_planned_sequence_stops_eq (r : Route) (l : List Stop) :
    set_planned_sequence r (l.map SeqElem.stopE)
      = .ok { r with
          planned_sequence := some l
          number_of_planned_stops := some l.length
          planned_sequence_names := some (l.map Stop.name) } := by
  unfold set_planned_sequence
  rw [all_isStop_map_stopE]
  simp [filterMap_getStop_map_stopE, filterMap_getStop_comp, SeqElem.getStop]

/-- Evaluation of set_actual_sequence on an all-stop-objects sequence. -/
theorem set_actual_sequence_stops_eq (r : Route) (l : List Stop) :
    set_actual_sequence r (l.map SeqElem.stopE)
      = .ok { r with
          actual_sequence := some l
          number_of_actual_stops := some l.length
          actual_sequence_names := some (l.map Stop.name) } := by
  unfold set_actual_sequence
  rw [all_isStop_map_stopE]
  simp [filterMap_getStop_map_stopE, filterMap_getStop_comp, SeqElem.getStop]

/-- C4 corrected: a sequence assigned as stop names is validated through the
stops dict — a missing name makes both setters fail with a KeyError, and
all-found names succeed — but a sequence assigned as stop objects is
accepted by both setters without any check against the stops dict. -/
theorem C4_sequence_assignment (r : Route) (names : List String)
    (stopsSeq : List Stop) :
    ((∃ n ∈ names, r.stops.lookup n = none) →
      isKeyError (set_planned_sequence r (names.map SeqElem.strE)) = true
        ∧ isKeyError (set_actual_sequence r (names.map SeqElem.strE)) = true)
    ∧ ((∀ n ∈ names, (r.stops.lookup n).isSome) →
      exceptIsOk (set_planned_sequence r (names.map SeqElem.strE)) = true
        ∧ exceptIsOk (set_actual_sequence r (names.map SeqElem.strE)) = true)
    ∧ (exceptIsOk (set_planned_sequence r (stopsSeq.map SeqElem.stopE)) = true
        ∧ exceptIsOk (set_actual_sequence r (stopsSeq.map SeqElem.stopE)) = true) := by
  refine ⟨?_, ?_, ?_⟩
  · intro h
    obtain ⟨n, hn, hnone⟩ := h
    cases names with
    | nil => simp at hn
    | cons m ms =>
      obtain ⟨k, hk, hknone⟩ :=
        resolve_names_keyError_of_missing r.stops (m :: ms) ⟨n, hn, hnone⟩
      constructor
      · rw [set_planned_sequence_names_eq r m ms, hk]; rfl
      · rw [set_actual_sequence_names_eq r m ms, hk]; rfl
  · intro h
    cases names with
    | nil => exact ⟨rfl, rfl⟩
    | cons m ms =>
      obtain ⟨l, hl⟩ := resolve_names_isOk_of_all_found r.stops (m :: ms) h
      constructor
      · rw [set_planned_sequence_names_eq r m ms, hl]; rfl
      · rw [set_actual_sequence_names_eq r m ms, hl]; rfl
  · constructor
    · rw [set_planned_sequence_stops_eq r stopsSeq]; rfl
    · rw [set_actual_sequence_stops_eq r stopsSeq]; rfl

/-- C4 counterexample: assigning a planned sequence given as a stop OBJECT
whose name B does not exist in the stops dict succeeds with no error, so the
claim that assignment fails whenever an element is not in stops is false. -/
theorem C4_counterexample :
    exceptIsOk (set_planned_sequence routeR0 [SeqElem.stopE (namedStop "B")]) = true
    ∧ set_planned_sequence routeR0 [SeqElem.stopE (namedStop "B")]
        = .ok { routeR0 with
                planned_sequence := some [namedStop "B"]
                number_of_planned_stops := some 1
                planned_sequence_names := some ["B"] }
    ∧ routeR0.stops.lookup "B" = none :=
  ⟨rfl, rfl, rfl⟩

/-- Witness for C4 amended: a missing NAME does fail with a KeyError, while
a stop object absent from the dict is accepted. -/
theorem C4_sequence_assignment_witness :
    (isKeyError (set_planned_sequence routeR0 (["B"].map SeqElem.strE)) = true
      ∧ isKeyError (set_actual_sequence routeR0 (["B"].map SeqElem.strE)) = true)
    ∧ (exceptIsOk (set_planned_sequence routeR0
          ([namedStop "B"].map SeqElem.stopE)) = true
      ∧ exceptIsOk (set_actual_sequence routeR0
          ([namedStop "B"].map SeqElem.stopE)) = true) :=
  ⟨(C4_sequence_assignment routeR0 ["B"] [namedStop "B"]).1 ⟨"B", by decide, by decide⟩,
   (C4_sequence_assignment routeR0 ["B"] [namedStop "B"]).2.2⟩

/-! ## Claim C1 -/

/-- C1: the matrix-free driving-distance computation raises AttributeError
on every non-empty sequence in its default sequential path, because the
transition list is converted to a NumPy array before `.append` is called on
it; no distances and no total are ever stored.  The multiprocessing path,
by contrast, does produce the per-transition distances with the cyclic
closing leg and their total. -/
theorem C1_driving_distances_crash :
    calculate_driving_distances [(0, 0), (1, 1)] "osm" false (fun _ _ _ => (1, 0))
        = .error ndarray_append_error
    ∧ evaluate_driving_distances_no_matrix [(0, 0), (1, 1)] "osm" false
        (fun _ _ _ => (1, 0))
        = .error ndarray_append_error
    ∧ evaluate_driving_distances_no_matrix [(0, 0), (1, 1)] "osm" true
        (fun _ _ _ => (1, 0))
        = .ok ([1, 1], 2) := by
  refine ⟨rfl, rfl, ?_⟩
  have h : evaluate_driving_distances_no_matrix [(0, 0), (1, 1)] "osm" true
      (fun _ _ _ => ((1 : ℚ), (0 : ℚ)))
      = .ok ([1, 1], ([1, 1] : List ℚ).sum) := rfl
  rw [h]
  norm_num

/-! ## Claim C3 -/

/-- C3: evaluate_route_status multiplies the delivered and rejected counts by
1000 (not 100) when deriving their "percentages", so a route whose single
delivery stop holds one delivered package reports a delivered percentage of
1000; the failed-attempted percentage does use 100, and the zero-package and
zero-delivery-stop guards report 0 with a warning instead of raising. -/
theorem C3_percentage_factor_is_1000 :
    (evaluate_route_status [testStop [0] ["delivered"]]).number_of_packages = 1
    ∧ (evaluate_route_status [testStop [0] ["delivered"]]).number_of_delivered_packages = 1
    ∧ (evaluate_route_status [testStop [0] ["delivered"]]).delivered_packages_percentage = 1000
    ∧ (evaluate_route_status [testStop [0] ["rejected"]]).rejected_packages_percentage = 1000
    ∧ (evaluate_route_status [testStop [0] ["attempted"]]).failed_attempted_packages_percentage = 100
    ∧ (evaluate_route_status []).avg_packages_per_stop = 0
    ∧ (evaluate_route_status []).warnings ≠ []
    ∧ (evaluate_route_status [testStop [] []]).avg_packages_per_stop = 0
    ∧ (evaluate_route_status [testStop [] []]).delivered_packages_percentage = 0
    ∧ (evaluate_route_status [testStop [] []]).warnings ≠ [] := by
  refine ⟨rfl, rfl, ?_, ?_, ?_, rfl, by decide, ?_, rfl, by decide⟩
  · have h : (evaluate_route_status [testStop [0] ["delivered"]]).delivered_packages_percentage
        = ((1 : ℕ) : ℚ) * 1000 / ((1 : ℕ) : ℚ) := rfl
    rw [h]; norm_num
  · have h : (evaluate_route_status [testStop [0] ["rejected"]]).rejected_packages_percentage
        = ((1 : ℕ) : ℚ) * 1000 / ((1 : ℕ) : ℚ) := rfl
    rw [h]; norm_num
  · have h : (evaluate_route_status [testStop [0] ["attempted"]]).failed_attempted_packages_percentage
        = ((1 : ℕ) : ℚ) * 100 / ((1 : ℕ) : ℚ) := rfl
    rw [h]; norm_num
  · have h : (evaluate_route_status [testStop [] []]).avg_packages_per_stop
        = ((0 : ℕ) : ℚ) / ((1 : ℕ) : ℚ) := rfl
    rw [h]; norm_num

/-! ## Claim C7 -/

/-- C7: utils.haversine is symmetric in its two points, returns exactly 0 on
coincident points, and is never negative (stated over the real-number model
of the float computation; totality is inherent to the model, matching the
absence of error conditions in the source). -/
theorem C7_haversine_properties (lat1 lon1 lat2 lon2 : ℝ) :
    haversine lat1 lon1 lat2 lon2 = haversine lat2 lon2 lat1 lon1
    ∧ haversine lat1 lon1 lat1 lon1 = 0
    ∧ 0 ≤ haversine lat1 lon1 lat2 lon2 := by
  have hsin : ∀ x y : ℝ, Real.sin ((x - y) / 2) ^ 2 = Real.sin ((y - x) / 2) ^ 2 := by
    intro x y
    rw [show (x - y) / 2 = -((y - x) / 2) by ring, Real.sin_neg]
    ring
  have hsym : haversine_a lat1 lon1 lat2 lon2 = haversine_a lat2 lon2 lat1 lon1 := by
    unfold haversine_a
    rw [hsin (radians lat2) (radians lat1), hsin (radians lon2) (radians lon1)]
    ring
  have hzero : haversine_a lat1 lon1 lat1 lon1 = 0 := by
    unfold haversine_a
    simp
  refine ⟨?_, ?_, ?_⟩
  · unfold haversine
    rw [hsym]
  · unfold haversine
    rw [hzero]
    simp
  · unfold haversine
    have h1 : 0 ≤ Real.arcsin (Real.sqrt (haversine_a lat1 lon1 lat2 lon2)) :=
      Real.arcsin_nonneg.mpr (Real.sqrt_nonneg _)
    have h2 : (0 : ℝ) ≤ 2 * Real.arcsin (Real.sqrt (haversine_a lat1 lon1 lat2 lon2)) := by
      linarith
    have h3 : (0 : ℝ) ≤ 6371 := by norm_num
    exact mul_nonneg h3 h2

/-! ## Claim C9 -/

/-- Mutating the status of the package `pid` to delivered, where `pid` occurs
exactly once among the references and currently is to-be-delivered, raises
the delivered-volume sum by exactly that package volume. -/
theorem total_volume_delivered_modify (h : Heap) (pid : PackageId)
    (l : List PackageId) (hcount : l.count pid = 1)
    (hstatus : (h pid).status = "to-be-delivered") :
    (((l.map (modify_status_at h pid "delivered")).filter
        fun p => p.status = "delivered").map Package.volume).sum
      = (((l.map h).filter fun p => p.status = "delivered").map
          Package.volume).sum + (h pid).volume := by
  induction l with
  | nil => simp at hcount
  | cons a tl ih =>
    by_cases ha : a = pid
    · subst ha
      have h0 : tl.count a = 0 := by
        rw [List.count_cons] at hcount
        simp at hcount
        omega
      have hnotin : a ∉ tl := List.count_eq_zero.mp h0
      have hmap : tl.map (modify_status_at h a "delivered") = tl.map h :=
        List.map_congr_left fun j hj => by
          have hja : ¬ j = a := fun hh => hnotin (hh ▸ hj)
          simp [modify_status_at, hja]
      have hh : modify_status_at h a "delivered" a
          = (h a).modify_status "delivered" := by
        simp [modify_status_at]
      simp [List.filter_cons, hmap, hh, Package.modify_status, hstatus]
      ring
    · have hcount2 : tl.count pid = 1 := by
        rw [List.count_cons] at hcount
        simpa [ha] using hcount
      have hha : modify_status_at h pid "delivered" a = h a := by
        simp [modify_status_at, ha]
      by_cases hst : (h a).status = "delivered"
      · simp [List.filter_cons, hha, hst, ih hcount2]
        ring
      · simp [List.filter_cons, hha, hst, ih hcount2]

/-- C9: on a stop built by stop_init, the per-status package counts read the
status snapshot taken at construction, so they are untouched by a later
modify_status on an owned package, while total_volume_of_delivered_packages
reads the packages' current statuses through the heap and changes by the
volume of the package flipped to delivered. -/
theorem C9_snapshot_counts_live_volumes (h : Heap) (nm : String)
    (loc : ℚ × ℚ) (lt : String) (tw : ℚ × ℚ) (pst : ℚ)
    (ids : List PackageId) (s : Stop) (pid : PackageId)
    (hinit : stop_init h nm loc lt tw pst ids = .ok s)
    (hcount : ids.count pid = 1)
    (hstatus : (h pid).status = "to-be-delivered") :
    (s.number_of_delivered_packages
        = ((ids.map fun i => (h i).status).count "delivered")
      ∧ s.number_of_rejected_packages
        = ((ids.map fun i => (h i).status).count "rejected")
      ∧ s.number_of_failed_attempted_packages
        = ((ids.map fun i => (h i).status).count "attempted")
      ∧ s.number_of_to_be_delivered_packages
        = ((ids.map fun i => (h i).status).count "to-be-delivered"))
    ∧ Stop.total_volume_of_delivered_packages (modify_status_at h pid "delivered") s
        = Stop.total_volume_of_delivered_packages h s + (h pid).volume
    ∧ ((h pid).volume ≠ 0 →
        Stop.total_volume_of_delivered_packages (modify_status_at h pid "delivered") s
          ≠ Stop.total_volume_of_delivered_packages h s) := by
  have hs : s = { name := nm, location := loc, location_type := lt,
                  time_window := tw, planned_service_time := pst,
                  packages_list := ids,
                  status_list := ids.map fun i => (h i).status } := by
    unfold stop_init at hinit
    split at hinit
    · simp at hinit
    · split at hinit
      · simp at hinit
      · injection hinit with hx
        exact hx.symm
  subst hs
  have hvol := total_volume_delivered_modify h pid ids hcount hstatus
  refine ⟨⟨rfl, rfl, rfl, rfl⟩, hvol, ?_⟩
  intro hv heq
  have heq2 : (((ids.map (modify_status_at h pid "delivered")).filter
        fun p => p.status = "delivered").map Package.volume).sum
      = (((ids.map h).filter fun p => p.status = "delivered").map
          Package.volume).sum := heq
  rw [hvol] at heq2
  exact hv (by linarith)

/-- Witness for C9: one to-be-delivered unit-volume package at a stop built
by stop_init; flipping it to delivered leaves the snapshot counts alone and
raises the delivered-volume total by 1. -/
theorem C9_snapshot_counts_live_volumes_witness :
    ((testStop [0] ["to-be-delivered"]).number_of_delivered_packages
        = ((([0] : List PackageId).map fun i => (tbdHeap i).status).count "delivered")
      ∧ (testStop [0] ["to-be-delivered"]).number_of_rejected_packages
        = ((([0] : List PackageId).map fun i => (tbdHeap i).status).count "rejected")
      ∧ (testStop [0] ["to-be-delivered"]).number_of_failed_attempted_packages
        = ((([0] : List PackageId).map fun i => (tbdHeap i).status).count "attempted")
      ∧ (testStop [0] ["to-be-delivered"]).number_of_to_be_delivered_packages
        = ((([0] : List PackageId).map fun i => (tbdHeap i).status).count "to-be-delivered"))
    ∧ Stop.total_volume_of_delivered_packages (modify_status_at tbdHeap 0 "delivered")
        (testStop [0] ["to-be-delivered"])
        = Stop.total_volume_of_delivered_packages tbdHeap
            (testStop [0] ["to-be-delivered"]) + (tbdHeap 0).volume
    ∧ ((tbdHeap 0).volume ≠ 0 →
        Stop.total_volume_of_delivered_packages (modify_status_at tbdHeap 0 "delivered")
            (testStop [0] ["to-be-delivered"])
          ≠ Stop.total_volume_of_delivered_packages tbdHeap
              (testStop [0] ["to-be-delivered"])) :=
  C9_snapshot_counts_live_volumes tbdHeap "S" (0, 0) "delivery" (0, 1) 0 [0]
    (testStop [0] ["to-be-delivered"]) 0 rfl (by decide) (by decide)
